import Mathlib

namespace Nauvi

/-- The type of a variable declaration (`VarType` in `src/module/block.rs`). -/
inductive VarType where
  | Let
  | Const
  | Var
deriving DecidableEq

mutual

/-- Statement for a block (`Statement` in `src/module/block.rs`). -/
inductive Statement where
  | Raw : String → Statement
  | Literal : String → Statement
  | VarDecl : VarType → String → Option Statement → Statement
  | Binary : Statement → String → Statement → Statement
  | Block : Block → Statement

/-- Block of code in a module / function (`Block` in `src/module/block.rs`). -/
inductive Block where
  | mk : Nat → List Statement → Block

end

/-- Indentation level of the block. -/
def Block.indent : Block → Nat
  | .mk i _ => i

/-- The statements in the block. -/
def Block.statements : Block → List Statement
  | .mk _ s => s

/-- Rendering of the indent: the four-space indent unit repeated `n` times,
as `"    ".repeat(indent)` does. -/
def indentStr : Nat → String
  | 0 => ""
  | n + 1 => "    " ++ indentStr n

mutual

/-- Embeds `Statement::generate` from `src/module/block.rs`. -/
def Statement.generate : Statement → String
  | .Raw code => code
  | .Literal value => value
  | .VarDecl var_type name i =>
      (match var_type with
        | .Let => "let"
        | .Const => "const"
        | .Var => "var")
      ++ " " ++ name ++
      (match i with
        | some i => " = " ++ Statement.generate i
        | none => "")
  | .Binary left operator right =>
      "(" ++ Statement.generate left ++ " " ++ operator ++ " "
        ++ Statement.generate right ++ ")"
  | .Block block => Block.generate block

/-- Embeds `Block::generate` from `src/module/block.rs`: for each statement in
order, push the repeated indent unit, the statement rendering and a newline. -/
def Block.generate : Block → String
  | .mk indent statements => Block.generateFrom indent statements

/-- The loop body of `Block::generate`, over the remaining statements. -/
def Block.generateFrom (indent : Nat) : List Statement → String
  | [] => ""
  | s :: rest =>
      indentStr indent ++ Statement.generate s ++ "\n"
        ++ Block.generateFrom indent rest

end

/-- Embeds `Block::new` from `src/module/block.rs`. -/
def Block.new (indent : Nat) : Block :=
  .mk indent []

/-- Embeds `Block::stmt` from `src/module/block.rs`: push a statement onto the
block. -/
def Block.stmt (b : Block) (statement : Statement) : Block :=
  .mk b.indent (b.statements ++ [statement])

/-- Whether a statement is the `Literal` variant. -/
def Statement.isLiteral : Statement → Bool
  | .Literal _ => true
  | _ => false

/-- Embeds `Block::literal` from `src/module/block.rs`, with the panic on a
non-`Literal` argument modelled as `none`; `some` is normal return. -/
def Block.literal (b : Block) (value : Statement) : Option Block :=
  match value with
  | .Literal v => some (b.stmt (.Literal v))
  | _ => none

/-- Embeds `impl From<&str> for Statement` from `src/module/block.rs`:
wrap the text in single quotes, no escaping. -/
def Statement.ofStr (code : String) : Statement :=
  .Literal ("\x27" ++ code ++ "\x27")

/-- Embeds `impl From<String> for Statement` from `src/module/block.rs`:
identical to the `&str` conversion. -/
def Statement.ofString (code : String) : Statement :=
  .Literal ("\x27" ++ code ++ "\x27")

/-- Embeds `impl From<i32> for Statement` from `src/module/block.rs`: the
method `i32::to_string` is the canonical decimal rendering, modelled by
`Int.repr`. -/
def Statement.ofI32 (code : Int) : Statement :=
  .Literal code.repr

/-- Embeds `impl From<f32> for Statement` from `src/module/block.rs`: the
method `f32::to_string` is the language-default decimal formatting, modelled
by an arbitrary formatting function `fmt` on an abstract type of `f32` values. -/
def Statement.ofF32 {α : Type} (fmt : α → String) (code : α) : Statement :=
  .Literal (fmt code)

/-- Module dependency (`Dependency` in `src/module.rs`). -/
structure Dependency where (imports : List String) (path : String)

/-- The line emitted for one dependency, used verbatim by both
`Module::generate_to` and `Module::generate_code_string` in `src/module.rs`:
the import keyword, the imported names joined by comma-space inside braces,
the path in single quotes, a semicolon and a newline. -/
def Dependency.importLine (d : Dependency) : String :=
  "import \x7b " ++ String.intercalate ", " d.imports ++ " \x7d from \x27"
    ++ d.path ++ "\x27;\n"

/-- Struct that represents a js module (`Module` in `src/module.rs`). -/
structure Module where (name : String) (dependencies : List Dependency) (main_block : Block)

/-- Embeds `Module::create` from `src/module.rs`. -/
def Module.create (name : String) : Module :=
  ⟨name, [], Block.new 0⟩

/-- Embeds `Module::generate_code_string` from `src/module.rs`: push each
dependency line onto a string buffer in order, then push the main block
rendering. -/
def Module.generate_code_string (m : Module) : String :=
  m.dependencies.foldl (fun code d => code ++ d.importLine) ""
    ++ m.main_block.generate

/-- Embeds `Module::generate_to` from `src/module.rs`: one `write_all` call
per dependency line, then one `write_all` of the main block rendering.
The result lists the byte chunks written to the sink, in order. -/
def Module.generate_to (m : Module) : List String :=
  m.dependencies.map Dependency.importLine ++ [m.main_block.generate]

/-- The byte content an in-memory sink holds after a sequence of writes:
the concatenation of the chunks in order. -/
def sinkContents (chunks : List String) : String :=
  String.join chunks

/-- The keyword token of a declaration kind, as matched inside
`Statement::generate`: Let→`let`, Const→`const`, Var→`var`. -/
def VarType.token : VarType → String
  | .Let => "let"
  | .Const => "const"
  | .Var => "var"

mutual

/-- The length of the rendering of a statement, as a recursive function of the
tree alone. -/
def Statement.genLength : Statement → Nat
  | .Raw code => code.length
  | .Literal value => value.length
  | .VarDecl var_type name i =>
      (VarType.token var_type).length + 1 + name.length +
        (match i with
          | some i => 3 + Statement.genLength i
          | none => 0)
  | .Binary left operator right =>
      Statement.genLength left + operator.length + Statement.genLength right + 4
  | .Block block => Block.genLength block

/-- The length of the rendering of a block, as a recursive function of the
tree alone. -/
def Block.genLength : Block → Nat
  | .mk indent statements => Block.genLengthFrom indent statements

/-- The length contributed by the remaining statements of a block. -/
def Block.genLengthFrom (indent : Nat) : List Statement → Nat
  | [] => 0
  | s :: rest =>
      4 * indent + Statement.genLength s + 1 + Block.genLengthFrom indent rest

end

theorem join_nil : String.join [] = "" := rfl

theorem join_cons (s : String) (l : List String) :
    String.join (s :: l) = s ++ String.join l := by
  apply String.ext
  simp [String.join_eq, String.data_append]

theorem indentStr_length : ∀ n, (indentStr n).length = 4 * n
  | 0 => rfl
  | n + 1 => by
      have h4 : ("    " : String).length = 4 := rfl
      rw [indentStr, String.length_append, indentStr_length n, h4]
      omega

/-- The loop of `Block::generate` concatenates, in order, one
`indent ++ rendering ++ newline` segment per statement. -/
theorem generateFrom_eq_join (indent : Nat) :
    ∀ statements : List Statement,
      Block.generateFrom indent statements
        = String.join (statements.map fun s => indentStr indent ++ s.generate ++ "\n")
  | [] => rfl
  | s :: rest => by
      rw [Block.generateFrom, List.map_cons, join_cons,
        generateFrom_eq_join indent rest]

/-- The import loop of `Module::generate_code_string` appends the import lines
in order after the buffer it starts from. -/
theorem foldl_importLine (deps : List Dependency) :
    ∀ code : String,
      deps.foldl (fun code d => code ++ d.importLine) code
        = code ++ String.join (deps.map Dependency.importLine) := by
  induction deps with
  | nil => intro code; simp [join_nil]
  | cons d rest ih =>
      intro code
      rw [List.foldl_cons, ih, List.map_cons, join_cons, String.append_assoc]

mutual

/-- The length of a statement rendering is `Statement.genLength`, a pure
function of the tree. -/
theorem Statement.length_generate :
    ∀ s : Statement, s.generate.length = s.genLength
  | .Raw _ => rfl
  | .Literal _ => rfl
  | .VarDecl var_type name i => by
      cases i with
      | none =>
          cases var_type <;>
            simp [Statement.generate, Statement.genLength, VarType.token,
              String.length_append] <;> rfl
      | some s =>
          have hs := Statement.length_generate s
          have h1 : ("let " : String).length = 4 := rfl
          have h2 : ("const " : String).length = 6 := rfl
          have h3 : ("var " : String).length = 4 := rfl
          have h4 : (" = " : String).length = 3 := rfl
          have h5 : ("let" : String).length = 3 := rfl
          have h6 : ("const" : String).length = 5 := rfl
          have h7 : ("var" : String).length = 3 := rfl
          have h8 : (" " : String).length = 1 := rfl
          cases var_type <;>
            simp [Statement.generate, Statement.genLength, VarType.token,
              String.length_append, hs] <;> omega
  | .Binary l op r => by
      have hl := Statement.length_generate l
      have hr := Statement.length_generate r
      have h1 : ("(" : String).length = 1 := rfl
      have h2 : (" " : String).length = 1 := rfl
      have h3 : (")" : String).length = 1 := rfl
      simp [Statement.generate, Statement.genLength, String.length_append,
        hl, hr]
      omega
  | .Block b => Block.generate_length b

/-- The length of a block rendering is `Block.genLength`, a pure function of
the tree. -/
theorem Block.generate_length :
    ∀ b : Block, b.generate.length = b.genLength
  | .mk indent statements => Block.length_generateFrom indent statements

/-- The length of the loop output of `Block::generate` over the remaining
statements. -/
theorem Block.length_generateFrom :
    ∀ (indent : Nat) (statements : List Statement),
      (Block.generateFrom indent statements).length
        = Block.genLengthFrom indent statements
  | _, [] => rfl
  | indent, s :: rest => by
      have hs := Statement.length_generate s
      have hrest := Block.length_generateFrom indent rest
      have hnl : ("\n" : String).length = 1 := rfl
      simp [Block.generateFrom, Block.genLengthFrom, String.length_append,
        hs, hrest, indentStr_length, hnl]

end

theorem join_append (l1 l2 : List String) :
    String.join (l1 ++ l2) = String.join l1 ++ String.join l2 := by
  induction l1 with
  | nil => rw [List.nil_append, join_nil, String.empty_append]
  | cons s rest ih =>
      rw [List.cons_append, join_cons, join_cons, ih, String.append_assoc]

/-- A call of `Module::generate_code_string` through `&self`: it returns the
string and the module state after the call, which the borrow leaves unchanged. -/
def Module.renderCall (m : Module) : String × Module :=
  (m.generate_code_string, m)

/-- A call of `Statement::generate` through `&self`, with the statement state
after the call. -/
def Statement.renderCall (s : Statement) : String × Statement :=
  (s.generate, s)

/-- A call of `Block::generate` through `&self`, with the block state after
the call. -/
def Block.renderCall (b : Block) : String × Block :=
  (b.generate, b)

/-- C1: `Block::generate` equals the in-order concatenation, over the
statements of the block, of the four-space indent unit repeated `indent` times,
the statement's rendering, and a single newline; a `Block` with indent 0
containing the single statement `Raw("foo")` renders to exactly `"foo\n"`. -/
theorem C1_block_generate (indent : Nat) (statements : List Statement) :
    Block.generate (.mk indent statements)
      = String.join (statements.map fun s => indentStr indent ++ s.generate ++ "\n")
    ∧ Block.generate (.mk 0 [.Raw "foo"]) = "foo\n" :=
  ⟨generateFrom_eq_join indent statements, by decide⟩

/-- C2: `Statement::generate` on `Binary(l, op, r)` is always the fully
parenthesized `"(" ++ generate l ++ " " ++ op ++ " " ++ generate r ++ ")"`,
whatever the operand shapes; `Binary(Literal "1", "+", Literal "2")` renders
to exactly `"(1 + 2)"`. -/
theorem C2_binary_generate (l r : Statement) (op : String) :
    (Statement.Binary l op r).generate
      = "(" ++ l.generate ++ " " ++ op ++ " " ++ r.generate ++ ")"
    ∧ (Statement.Binary (.Literal "1") "+" (.Literal "2")).generate = "(1 + 2)" :=
  ⟨rfl, rfl⟩

/-- C3: `Statement::generate` on `VarDecl(kind, name, init?)` yields the kind
token (Let→`let`, Const→`const`, Var→`var`), a space and the name, followed by
`" = " ++ generate init` exactly when an initializer is present and nothing
extra otherwise; `VarDecl(Let, "foo", None)` renders to `"let foo"` and
`VarDecl(Let, "foo", Some(Literal "42"))` renders to `"let foo = 42"`. -/
theorem C3_vardecl_generate (vt : VarType) (name : String) (i : Statement) :
    (Statement.VarDecl vt name none).generate = vt.token ++ " " ++ name
    ∧ (Statement.VarDecl vt name (some i)).generate
        = vt.token ++ " " ++ name ++ " = " ++ i.generate
    ∧ (Statement.VarDecl .Let "foo" none).generate = "let foo"
    ∧ (Statement.VarDecl .Let "foo" (some (.Literal "42"))).generate
        = "let foo = 42" := by
  refine ⟨?_, ?_, by decide, by decide⟩
  · cases vt <;> simp [Statement.generate, VarType.token, String.append_empty]
  · cases vt <;> simp [Statement.generate, VarType.token, String.append_assoc]

/-- C4: `Module::generate_code_string` emits, for each dependency in list
order, the line `import { <imports joined by ", "> } from '<path>';` with a
newline, then the main block rendering, with nothing inserted in between; a
module with dependency `(["foo"], "bar")` and one `Raw("foo")` body statement
renders to exactly `"import { foo } from 'bar';\nfoo\n"`. -/
theorem C4_module_generate (m : Module) :
    m.generate_code_string
      = String.join (m.dependencies.map Dependency.importLine)
          ++ m.main_block.generate
    ∧ (∀ (imps : List String) (p : String),
        Dependency.importLine ⟨imps, p⟩
          = "import \x7b " ++ String.intercalate ", " imps ++ " \x7d from \x27"
              ++ p ++ "\x27;\n")
    ∧ Module.generate_code_string ⟨"m", [⟨["foo"], "bar"⟩], .mk 0 [.Raw "foo"]⟩
        = "import \x7b foo \x7d from \x27bar\x27;\nfoo\n" := by
  refine ⟨?_, fun imps p => rfl, by decide⟩
  unfold Module.generate_code_string
  rw [foldl_importLine, String.empty_append]

/-- C5 as stated is false: with an outer block of indent 1 holding a nested
block of indent 0 whose sole statement is `Raw("a")`, the output is
`"    a\n\n"` — the first line of the inner block is prefixed by the OUTER
block's indent, so the inner block's lines are not independent of the outer
block's indent. -/
theorem C5_counterexample :
    Block.generate (.mk 1 [.Block (.mk 0 [.Raw "a"])]) = "    a\n\n"
    ∧ Block.generate (.mk 1 [.Block (.mk 0 [.Raw "a"])])
        ≠ Block.generate (.mk 0 [.Block (.mk 0 [.Raw "a"])]) := by
  decide

/-- C5 amended: `Statement::generate` on a nested `Block(inner)` is exactly
`Block::generate(inner)`, computed from the inner block's own indent only
(no auto-increment for nesting); the outer block then wraps that rendering
like any statement, prefixing its own indent once before the whole inner
rendering and appending one newline after it, so only the first line of the
inner block receives the outer indent. -/
theorem C5_nested_block (inner : Block) (outerInd : Nat) (rest : List Statement) :
    (Statement.Block inner).generate = inner.generate
    ∧ Block.generateFrom outerInd (Statement.Block inner :: rest)
        = indentStr outerInd ++ inner.generate ++ "\n"
            ++ Block.generateFrom outerInd rest :=
  ⟨rfl, rfl⟩

/-- C6: converting a value into a `Literal` statement follows a fixed rule per
kind: a string `s` becomes `Literal("'" ++ s ++ "'")` with embedded quotes
left unescaped; a 32-bit integer becomes the `Literal` of its canonical
decimal string; a 32-bit float becomes the `Literal` of the language-default
formatting of the float (the formatter abstracted as `fmt`). -/
theorem C6_conversions (s : String) (n : Int) {α : Type} (fmt : α → String)
    (x : α) :
    Statement.ofStr s = .Literal ("\x27" ++ s ++ "\x27")
    ∧ Statement.ofString s = .Literal ("\x27" ++ s ++ "\x27")
    ∧ (-(2 ^ 31) ≤ n → n < 2 ^ 31 → Statement.ofI32 n = .Literal n.repr)
    ∧ Statement.ofF32 fmt x = .Literal (fmt x)
    ∧ Statement.ofStr "it\x27s" = .Literal "\x27it\x27s\x27"
    ∧ Statement.ofI32 42 = .Literal "42"
    ∧ Statement.ofI32 (-7) = .Literal "-7" :=
  ⟨rfl, rfl, fun _ _ => rfl, rfl, rfl, rfl, rfl⟩

/-- C6 witness: the integer conversion rule applied at the in-range value 5. -/
theorem C6_conversions_witness :
    Statement.ofI32 5 = .Literal (Int.repr 5) :=
  (C6_conversions "a" 5 (fun _ : Unit => "1.5") ()).2.2.1 (by decide) (by decide)

/-- C7: `Block::literal` aborts (modelled as `none`) exactly when the value
converted into a `Statement` is not the `Literal` variant; on a `Literal` it
appends that statement to the block and succeeds. -/
theorem C7_literal (b : Block) (v : Statement) :
    (b.literal v = none ↔ v.isLiteral = false)
    ∧ (v.isLiteral = true → b.literal v = some (b.stmt v)) := by
  cases v <;> simp [Block.literal, Statement.isLiteral]

/-- C7 witness: `Block::literal` succeeds on `Literal "1"` by appending it,
and aborts on the non-literal `Raw "x"`. -/
theorem C7_literal_witness :
    (Block.new 0).literal (.Literal "1")
        = some ((Block.new 0).stmt (.Literal "1"))
    ∧ (Block.new 0).literal (.Raw "x") = none :=
  ⟨(C7_literal (Block.new 0) (.Literal "1")).2 rfl,
   (C7_literal (Block.new 0) (.Raw "x")).1.mpr rfl⟩

/-- C8: rendering is pure and deterministic: a `generate_code_string` call
leaves the module unchanged, and a second call on the unmutated module — and
likewise repeated `generate` calls on the same statement or block — returns
byte-identical output. -/
theorem C8_render_pure (m : Module) (s : Statement) (b : Block) :
    (Module.renderCall m).2 = m
    ∧ (Module.renderCall ((Module.renderCall m).2)).1 = (Module.renderCall m).1
    ∧ (Statement.renderCall ((Statement.renderCall s).2)).1
        = (Statement.renderCall s).1
    ∧ (Block.renderCall ((Block.renderCall b).2)).1 = (Block.renderCall b).1 :=
  ⟨rfl, rfl, rfl, rfl⟩

/-- C9: `Statement::generate` (and `Block::generate`) is total and
deterministic over every finite statement tree: it is a function into
`String`, and the length of its output is the pure structural function
`genLength` of the tree. -/
theorem C9_generate_total (s : Statement) (b : Block) :
    s.generate.length = s.genLength ∧ b.generate.length = b.genLength :=
  ⟨Statement.length_generate s, Block.generate_length b⟩

/-- C10: the bytes `Module::generate_to` writes to an in-memory sink are
exactly the bytes of `Module::generate_code_string`: the streaming and the
string-building renderings implement the same function. -/
theorem C10_generate_to_eq (m : Module) :
    sinkContents (Module.generate_to m) = Module.generate_code_string m := by
  unfold sinkContents Module.generate_to Module.generate_code_string
  rw [join_append, join_cons, join_nil, String.append_empty,
    foldl_importLine, String.empty_append]

end Nauvi
